import Mathlib

/-!
Verification of the FRR metrics-extraction pipeline (VRRP collector in
`collector/vrrp.go`, BFD collector known through `collector/bfd_test.go`).

The Go code is shallowly embedded:

* JSON input bytes are modelled as `String`; `parseJson` is a fueled
  recursive-descent parser covering the JSON subset the daemon emits
  (null, booleans, integer numerals, plain strings, arrays, objects).
* `encoding/json` unmarshalling of `[]VrrpVrInfo` is modelled by
  `decodeVrrpList`, reproducing Go semantics: `null` is a no-op leaving
  zero values, unknown object keys are ignored, keys match struct fields
  (or their json tags) ASCII-case-insensitively, later duplicate keys win,
  type mismatches are errors, and `*uint32` fields distinguish absence
  (`none`) from a present value.
* The metric channel is modelled as a `List Observation`; `newGauge` and
  `newCounter` append observations of the corresponding kind.
* `float64` metric values are modelled as `Int` (every value the code
  emits is an integer exactly representable in `float64`).
-/

set_option autoImplicit false

namespace FrrExporter

/-- JSON values, as far as the daemon output shapes need. -/
inductive Json where
  | null : Json
  | bool : Bool → Json
  | num : Int → Json
  | str : String → Json
  | arr : List Json → Json
  | obj : List (String × Json) → Json

/-- ASCII case folding of one character, as a code point. Models the
case-insensitive comparisons of `strings.EqualFold` and of the
`encoding/json` field matcher on the ASCII strings the daemon emits. -/
def foldCharCode (c : Char) : Nat :=
  if 65 ≤ c.toNat ∧ c.toNat ≤ 90 then c.toNat + 32 else c.toNat

/-- ASCII case folding of a string, as a list of code points. -/
def foldKey (s : String) : List Nat :=
  s.data.map foldCharCode

/-- Model of `strings.EqualFold` (and of the json key matcher) on ASCII data. -/
def eqFold (s t : String) : Bool :=
  foldKey s == foldKey t

/-- JSON insignificant whitespace. -/
def isWs (c : Char) : Bool :=
  c = ' ' ∨ c = '\t' ∨ c = '\n' ∨ c = '\r'

/-- Drop leading JSON whitespace. -/
def skipWs : List Char → List Char
  | [] => []
  | c :: rest => if isWs c then skipWs rest else c :: rest

/-- Parse a run of decimal digits (at least one). -/
def parseDigits : List Char → Nat → Option (Nat × List Char)
  | [], _ => none
  | c :: rest, acc =>
    if c.isDigit then
      match parseDigits rest (acc * 10 + (c.toNat - 48)) with
      | some r => some r
      | none => some (acc * 10 + (c.toNat - 48), rest)
    else none

/-- Parse the body of a string literal up to the closing quote.
Escape sequences are not part of the daemon vocabulary; a backslash fails. -/
def parseStrBody : List Char → List Char → Option (String × List Char)
  | [], _ => none
  | c :: rest, acc =>
    if c = '"' then some (String.mk acc.reverse, rest)
    else if c = '\\' then none
    else parseStrBody rest (c :: acc)

mutual

/-- Parse one JSON value, returning it with the unconsumed rest. -/
def parseVal : Nat → List Char → Option (Json × List Char)
  | 0, _ => none
  | fuel + 1, cs =>
    match skipWs cs with
    | 'n' :: 'u' :: 'l' :: 'l' :: rest => some (.null, rest)
    | 't' :: 'r' :: 'u' :: 'e' :: rest => some (.bool true, rest)
    | 'f' :: 'a' :: 'l' :: 's' :: 'e' :: rest => some (.bool false, rest)
    | '"' :: rest =>
      match parseStrBody rest [] with
      | some (s, r) => some (.str s, r)
      | none => none
    | '-' :: rest =>
      match parseDigits rest 0 with
      | some (n, r) => some (.num (-(n : Int)), r)
      | none => none
    | '[' :: rest =>
      match skipWs rest with
      | ']' :: r => some (.arr [], r)
      | _ => parseElems fuel rest []
    | '\x7b' :: rest =>
      match skipWs rest with
      | '\x7d' :: r => some (.obj [], r)
      | _ => parseMembers fuel rest []
    | c :: rest =>
      if c.isDigit then
        match parseDigits (c :: rest) 0 with
        | some (n, r) => some (.num (n : Int), r)
        | none => none
      else none
    | [] => none

/-- Parse the elements of a non-empty JSON array after `[`. -/
def parseElems : Nat → List Char → List Json → Option (Json × List Char)
  | 0, _, _ => none
  | fuel + 1, cs, acc =>
    match parseVal fuel cs with
    | none => none
    | some (v, rest) =>
      match skipWs rest with
      | ',' :: r => parseElems fuel r (acc ++ [v])
      | ']' :: r => some (.arr (acc ++ [v]), r)
      | _ => none

/-- Parse the members of a non-empty JSON object after the opening brace. -/
def parseMembers : Nat → List Char → List (String × Json) →
    Option (Json × List Char)
  | 0, _, _ => none
  | fuel + 1, cs, acc =>
    match skipWs cs with
    | '"' :: rest =>
      match parseStrBody rest [] with
      | none => none
      | some (k, r1) =>
        match skipWs r1 with
        | ':' :: r2 =>
          match parseVal fuel r2 with
          | none => none
          | some (v, r3) =>
            match skipWs r3 with
            | ',' :: r4 => parseMembers fuel r4 (acc ++ [(k, v)])
            | '\x7d' :: r4 => some (.obj (acc ++ [(k, v)]), r4)
            | _ => none
        | _ => none
    | _ => none

end

/-- Parse a whole buffer as a single JSON value; trailing content other
than whitespace is an error, as in `json.Unmarshal`. -/
def parseJson (s : String) : Option Json :=
  match parseVal (2 * s.length + 2) s.data with
  | some (j, rest) => if skipWs rest = [] then some j else none
  | none => none

/-! ## Data model (`collector/vrrp.go`)

`uint32` is modelled as `Nat` with the range check `< 2 ^ 32` at decode
time; `*uint32` becomes `Option Nat`. -/

/-- `VrrpInstanceStats`: the five independently optional counters. -/
structure VrrpInstanceStats where
  AdverTx : Option Nat
  AdverRx : Option Nat
  GarpTx : Option Nat
  NeighborAdverTx : Option Nat
  Transitions : Option Nat
deriving DecidableEq, Repr

/-- `VrrpInstanceInfo`: one address-family sub-record. -/
structure VrrpInstanceInfo where
  Subinterface : String
  Status : String
  Statistics : VrrpInstanceStats
deriving DecidableEq, Repr

/-- `VrrpVrInfo`: one virtual-router record. -/
structure VrrpVrInfo where
  Vrid : Nat
  Interface : String
  V6Info : VrrpInstanceInfo
  V4Info : VrrpInstanceInfo
deriving DecidableEq, Repr

/-- Go zero value of `VrrpInstanceStats`: all pointers nil. -/
def zeroStats : VrrpInstanceStats :=
  ⟨none, none, none, none, none⟩

/-- Go zero value of `VrrpInstanceInfo`. -/
def zeroInstanceInfo : VrrpInstanceInfo :=
  ⟨"", "", zeroStats⟩

/-- Go zero value of `VrrpVrInfo`. -/
def zeroVrInfo : VrrpVrInfo :=
  ⟨0, "", zeroInstanceInfo, zeroInstanceInfo⟩

/-! ## Decoding (`json.Unmarshal` semantics for these shapes) -/

/-- Decode errors carry a diagnostic string, as Go errors do. -/
abbrev DecodeError := String

/-- Unmarshal a JSON value into a `string` field holding `cur`:
`null` is a no-op, a string replaces the value, anything else is a
type error. -/
def decodeStrInto (cur : String) : Json → Except DecodeError String
  | .null => .ok cur
  | .str s => .ok s
  | _ => .error ("cannot unmarshal value into string field")

/-- Unmarshal a JSON value into a `uint32` field holding `cur`:
`null` is a no-op, an in-range non-negative integer replaces the value,
anything else is a type error. -/
def decodeU32Into (cur : Nat) : Json → Except DecodeError Nat
  | .null => .ok cur
  | .num n =>
    if 0 ≤ n ∧ n < 2 ^ 32 then .ok n.toNat
    else .error ("number out of range for uint32 field")
  | _ => .error ("cannot unmarshal value into uint32 field")

/-- Unmarshal a JSON value into a `*uint32` field: `null` makes the
pointer nil, an in-range integer allocates a value, anything else is a
type error. -/
def decodeOptU32 : Json → Except DecodeError (Option Nat)
  | .null => .ok none
  | .num n =>
    if 0 ≤ n ∧ n < 2 ^ 32 then .ok (some n.toNat)
    else .error ("number out of range for uint32 field")
  | _ => .error ("cannot unmarshal value into uint32 field")

/-- Process one object member into `VrrpInstanceStats`. Unknown keys are
ignored; known keys (matched case-insensitively) update their field. -/
def setStatsField (st : VrrpInstanceStats) (kv : String × Json) :
    Except DecodeError VrrpInstanceStats :=
  if eqFold kv.1 "AdverTx" then
    (decodeOptU32 kv.2).map fun v => { st with AdverTx := v }
  else if eqFold kv.1 "AdverRx" then
    (decodeOptU32 kv.2).map fun v => { st with AdverRx := v }
  else if eqFold kv.1 "GarpTx" then
    (decodeOptU32 kv.2).map fun v => { st with GarpTx := v }
  else if eqFold kv.1 "NeighborAdverTx" then
    (decodeOptU32 kv.2).map fun v => { st with NeighborAdverTx := v }
  else if eqFold kv.1 "Transitions" then
    (decodeOptU32 kv.2).map fun v => { st with Transitions := v }
  else .ok st

/-- Unmarshal a JSON value into a `VrrpInstanceStats` field holding
`cur`: `null` is a no-op, an object is folded member by member. -/
def decodeStatsInto (cur : VrrpInstanceStats) : Json →
    Except DecodeError VrrpInstanceStats
  | .null => .ok cur
  | .obj ms => ms.foldlM setStatsField cur
  | _ => .error ("cannot unmarshal value into VrrpInstanceStats")

/-- Process one object member into `VrrpInstanceInfo`: json tag
`interface` feeds `Subinterface`, field `Status` its own name, json tag
`stats` feeds `Statistics`; unknown keys are ignored. -/
def setInstanceField (inst : VrrpInstanceInfo) (kv : String × Json) :
    Except DecodeError VrrpInstanceInfo :=
  if eqFold kv.1 "interface" then
    (decodeStrInto inst.Subinterface kv.2).map fun v =>
      { inst with Subinterface := v }
  else if eqFold kv.1 "Status" then
    (decodeStrInto inst.Status kv.2).map fun v => { inst with Status := v }
  else if eqFold kv.1 "stats" then
    (decodeStatsInto inst.Statistics kv.2).map fun v =>
      { inst with Statistics := v }
  else .ok inst

/-- Unmarshal a JSON value into a `VrrpInstanceInfo` field holding `cur`. -/
def decodeInstanceInto (cur : VrrpInstanceInfo) : Json →
    Except DecodeError VrrpInstanceInfo
  | .null => .ok cur
  | .obj ms => ms.foldlM setInstanceField cur
  | _ => .error ("cannot unmarshal value into VrrpInstanceInfo")

/-- Process one object member into `VrrpVrInfo`: fields `Vrid` and
`Interface` by name, json tags `v6` and `v4` for the sub-records;
unknown keys are ignored. -/
def setVrField (vr : VrrpVrInfo) (kv : String × Json) :
    Except DecodeError VrrpVrInfo :=
  if eqFold kv.1 "Vrid" then
    (decodeU32Into vr.Vrid kv.2).map fun v => { vr with Vrid := v }
  else if eqFold kv.1 "Interface" then
    (decodeStrInto vr.Interface kv.2).map fun v => { vr with Interface := v }
  else if eqFold kv.1 "v6" then
    (decodeInstanceInto vr.V6Info kv.2).map fun v => { vr with V6Info := v }
  else if eqFold kv.1 "v4" then
    (decodeInstanceInto vr.V4Info kv.2).map fun v => { vr with V4Info := v }
  else .ok vr

/-- Unmarshal one array element into a fresh `VrrpVrInfo`. -/
def decodeVr : Json → Except DecodeError VrrpVrInfo
  | .null => .ok zeroVrInfo
  | .obj ms => ms.foldlM setVrField zeroVrInfo
  | _ => .error ("cannot unmarshal value into VrrpVrInfo")

/-- Unmarshal the top-level value into `[]VrrpVrInfo`: JSON `null`
leaves the nil slice, an array decodes element-wise, anything else is a
type error. -/
def decodeVrrpList : Json → Except DecodeError (List VrrpVrInfo)
  | .null => .ok []
  | .arr xs => xs.mapM decodeVr
  | _ => .error ("cannot unmarshal value into []VrrpVrInfo")

/-- `json.Unmarshal(jsonVRRPInfo, &jsonList)`: parse the bytes, then
decode into the record list. -/
def decodeVrrpInput (s : String) : Except DecodeError (List VrrpVrInfo) :=
  match parseJson s with
  | none => .error ("invalid JSON input")
  | some j => decodeVrrpList j

/-! ## Metric emission -/

/-- The two observation kinds of the shared helpers. -/
inductive MetricKind where
  | gauge : MetricKind
  | counter : MetricKind
deriving DecidableEq, Repr

/-- One typed observation pushed into the metric sink: descriptor key
(the key of the `descriptions` map in `getVRRPDesc`), kind, positional
label values, numeric value. -/
structure Observation where
  desc : String
  kind : MetricKind
  labelValues : List String
  value : Int
deriving DecidableEq, Repr

/-- `vrrpStates`: the fixed ordered enumerated state set. -/
def vrrpStates : List String :=
  ["Initialize", "Master", "Backup"]

/-- Label names of `getVRRPDesc`: the base labels shared by all VRRP
descriptors. -/
def vrrpLabelNames : List String :=
  ["proto", "vrid", "interface", "subinterface"]

/-- `getVRRPDesc`: descriptor key together with its declared label-name
list, for every VRRP metric. -/
def getVRRPDesc : List (String × List String) :=
  [("vrrpState", vrrpLabelNames ++ ["state"]),
   ("adverTx", vrrpLabelNames),
   ("adverRx", vrrpLabelNames),
   ("garpTx", vrrpLabelNames),
   ("neighborAdverTx", vrrpLabelNames),
   ("transitions", vrrpLabelNames)]

/-- One optional-counter emission: `if field != nil` push a counter
observation with the base labels, else push nothing. -/
def optCounter (d : String) (ls : List String) : Option Nat → List Observation
  | some v => [⟨d, .counter, ls, (v : Int)⟩]
  | none => []

/-- `processInstance`: the observations one family sub-record pushes
into the channel, in emission order (three one-hot state gauges, then
the present counters). -/
def processInstance (proto : String) (vrid : Nat) (iface : String)
    (inst : VrrpInstanceInfo) : List Observation :=
  let vrrpLabels := [proto, toString vrid, iface, inst.Subinterface]
  vrrpStates.map (fun state =>
    { desc := "vrrpState", kind := .gauge,
      labelValues := vrrpLabels ++ [state],
      value := if eqFold inst.Status state then 1 else 0 })
  ++ optCounter "adverTx" vrrpLabels inst.Statistics.AdverTx
  ++ optCounter "adverRx" vrrpLabels inst.Statistics.AdverRx
  ++ optCounter "garpTx" vrrpLabels inst.Statistics.GarpTx
  ++ optCounter "neighborAdverTx" vrrpLabels inst.Statistics.NeighborAdverTx
  ++ optCounter "transitions" vrrpLabels inst.Statistics.Transitions

/-- `processVRRPInfo`: unmarshal the bytes, and on success walk the
records, v4 sub-record then v6 sub-record of each. The first component
is everything pushed into the channel before the function returned, the
second the returned error (`none` on success). A decode error returns
before the loop, so nothing has been emitted. -/
def processVRRPInfo (s : String) : List Observation × Option DecodeError :=
  match decodeVrrpInput s with
  | .error e => ([], some e)
  | .ok jsonList =>
    (jsonList.flatMap (fun vrInfo =>
      processInstance "v4" vrInfo.Vrid vrInfo.Interface vrInfo.V4Info
        ++ processInstance "v6" vrInfo.Vrid vrInfo.Interface vrInfo.V6Info),
     none)

/-! ## BFD extractor

`collector/bfd.go` is not among the available sources; only its test
(`collector/bfd_test.go`) is. The extractor is therefore modelled from
the spec, at the level of already-decoded peer records. -/

/-- Modelled from the spec: the BFD peer session record decoded by the
missing `collector/bfd.go` — local and peer address strings, integer
uptime in seconds, and an integer status code (1 = up, 0 = down). -/
structure BfdPeer where
  localAddr : String
  peerAddr : String
  uptime : Nat
  status : Nat
deriving DecidableEq, Repr

/-- Modelled from the spec: the per-peer emission of the missing
`collector/bfd.go` — one uptime counter and one state gauge labelled
(local, peer), state value 1 when the status code denotes up and 0 for
any other value. -/
def bfdPeerObs (p : BfdPeer) : List Observation :=
  [⟨"bfdPeerUptime", .counter, [p.localAddr, p.peerAddr], (p.uptime : Int)⟩,
   ⟨"bfdPeerState", .gauge, [p.localAddr, p.peerAddr],
     if p.status = 1 then 1 else 0⟩]

/-- Modelled from the spec: `processBFDPeers` of the missing
`collector/bfd.go`, applied to the decoded peer table. It emits exactly
one aggregate peer-count gauge (value = number of records, no labels),
then the per-peer observations of each decoded record in order. -/
def processBFDPeers (peers : List BfdPeer) : List Observation :=
  ⟨"bfdPeerCount", .gauge, [], (peers.length : Int)⟩ ::
  peers.flatMap bfdPeerObs

/-- The three-peer table of the test fixture behind
`TestProcessBFDPeers` and `expectedBFDMetrics`. -/
def examplePeers : List BfdPeer :=
  [⟨"10.10.141.81", "10.10.141.61", 847716, 1⟩,
   ⟨"10.10.141.81", "10.10.141.62", 847595, 1⟩,
   ⟨"10.10.141.81", "10.10.141.63", 847888, 0⟩]

/-! ## Concrete inputs used in witnesses and counterexamples -/

/-- The JSON literal `null`. -/
def inputNull : String := "null"

/-- The JSON literal `[]`. -/
def inputEmptyArray : String := "[]"

/-- One record with no fields at all: `[{}]` (braces escaped). -/
def inputEmptyRecord : String := "[\x7b\x7d]"

/-- One record carrying only a field unknown to the schema. -/
def inputExtraField : String := "[\x7b\"extra\":1\x7d]"

/-- One record whose `Vrid` field has the wrong type (a string). -/
def inputBadVrid : String := "[\x7b\"Vrid\":\"x\"\x7d]"

/-- Bytes that are not JSON at all. -/
def inputMalformed : String := "nope"

/-- The first observation `processVRRPInfo` emits on `inputEmptyRecord`. -/
def sampleStateObs : Observation :=
  ⟨"vrrpState", .gauge, ["v4", "0", "", "", "Initialize"], 0⟩

/-! ## Helper lemmas -/

/-- Whether an observation belongs to the one-hot state block. -/
def isStateObs (o : Observation) : Bool :=
  o.desc == "vrrpState"

/-- The state observations of an emission list. -/
def stateBlock (l : List Observation) : List Observation :=
  l.filter isStateObs

theorem eqFold_foldKey_eq {s t : String} (h : eqFold s t = true) :
    foldKey s = foldKey t := by
  simpa [eqFold] using h

theorem eqFold_excl {s a b : String} (hab : foldKey a ≠ foldKey b)
    (ha : eqFold s a = true) : eqFold s b = false := by
  cases hb : eqFold s b with
  | false => rfl
  | true =>
    exact absurd ((eqFold_foldKey_eq ha).symm.trans (eqFold_foldKey_eq hb)) hab

theorem stateBlock_optCounter (d : String) (ls : List String) (x : Option Nat)
    (h : (d == "vrrpState") = false) : stateBlock (optCounter d ls x) = [] := by
  cases x <;> simp [optCounter, stateBlock, isStateObs, h]

theorem stateBlock_processInstance (proto : String) (vrid : Nat)
    (iface : String) (inst : VrrpInstanceInfo) :
    stateBlock (processInstance proto vrid iface inst) =
      vrrpStates.map (fun st =>
        { desc := "vrrpState", kind := .gauge,
          labelValues := [proto, toString vrid, iface, inst.Subinterface, st],
          value := if eqFold inst.Status st then 1 else 0 }) := by
  unfold processInstance
  simp only [stateBlock, List.filter_append]
  rw [show (List.filter isStateObs (optCounter "adverTx" _ _)) = [] from
        stateBlock_optCounter _ _ _ (by decide),
      show (List.filter isStateObs (optCounter "adverRx" _ _)) = [] from
        stateBlock_optCounter _ _ _ (by decide),
      show (List.filter isStateObs (optCounter "garpTx" _ _)) = [] from
        stateBlock_optCounter _ _ _ (by decide),
      show (List.filter isStateObs (optCounter "neighborAdverTx" _ _)) = [] from
        stateBlock_optCounter _ _ _ (by decide),
      show (List.filter isStateObs (optCounter "transitions" _ _)) = [] from
        stateBlock_optCounter _ _ _ (by decide)]
  simp [vrrpStates, isStateObs]

/-- The one-hot sum of one family block: 1 when the status folds to one
of the enumerated states, 0 otherwise. -/
theorem stateSum_processInstance (proto : String) (vrid : Nat)
    (iface : String) (inst : VrrpInstanceInfo) :
    ((stateBlock (processInstance proto vrid iface inst)).map
        Observation.value).sum =
      if vrrpStates.any (fun st => eqFold inst.Status st) then 1 else 0 := by
  rw [stateBlock_processInstance]
  simp only [vrrpStates, List.map_cons, List.map_nil, List.any_cons,
    List.any_nil, List.sum_cons, List.sum_nil]
  rcases Bool.eq_false_or_eq_true (eqFold inst.Status "Initialize") with h1 | h1
  · have h2 := eqFold_excl (a := "Initialize") (b := "Master") (by decide) h1
    have h3 := eqFold_excl (a := "Initialize") (b := "Backup") (by decide) h1
    simp [h1, h2, h3]
  · rcases Bool.eq_false_or_eq_true (eqFold inst.Status "Master") with h2 | h2
    · have h3 := eqFold_excl (a := "Master") (b := "Backup") (by decide) h2
      simp [h1, h2, h3]
    · rcases Bool.eq_false_or_eq_true (eqFold inst.Status "Backup") with h3 | h3 <;>
        simp [h1, h2, h3]

theorem stateSum_mem_zero_one (proto : String) (vrid : Nat) (iface : String)
    (inst : VrrpInstanceInfo) :
    ((stateBlock (processInstance proto vrid iface inst)).map
        Observation.value).sum = 0 ∨
    ((stateBlock (processInstance proto vrid iface inst)).map
        Observation.value).sum = 1 := by
  rw [stateSum_processInstance]
  rcases Bool.eq_false_or_eq_true
      (vrrpStates.any (fun st => eqFold inst.Status st)) with h | h <;> simp [h]

theorem mem_optCounter {d : String} {ls : List String} {x : Option Nat}
    {o : Observation} (h : o ∈ optCounter d ls x) :
    ∃ v, x = some v ∧ o = ⟨d, .counter, ls, (v : Int)⟩ := by
  cases x with
  | none => simp [optCounter] at h
  | some v => exact ⟨v, rfl, by simpa [optCounter] using h⟩

/-- Catalogue of everything `processInstance` can emit: a state gauge
for one of the enumerated states, or a counter for one of the five
statistics descriptors. -/
theorem mem_processInstance {proto : String} {vrid : Nat} {iface : String}
    {inst : VrrpInstanceInfo} {o : Observation}
    (h : o ∈ processInstance proto vrid iface inst) :
    (∃ st ∈ vrrpStates,
      o = ⟨"vrrpState", .gauge,
            [proto, toString vrid, iface, inst.Subinterface, st],
            if eqFold inst.Status st then 1 else 0⟩) ∨
    (∃ d, ∃ v : Nat, d ∈ ["adverTx", "adverRx", "garpTx", "neighborAdverTx",
                 "transitions"] ∧
      o = ⟨d, .counter, [proto, toString vrid, iface, inst.Subinterface],
            (v : Int)⟩) := by
  simp only [processInstance, List.mem_append] at h
  rcases h with ((((hm | h1) | h2) | h3) | h4) | h5
  · rcases List.mem_map.mp hm with ⟨st, hst, rfl⟩
    exact Or.inl ⟨st, hst, rfl⟩
  · rcases mem_optCounter h1 with ⟨v, _, rfl⟩
    exact Or.inr ⟨_, v, by simp, rfl⟩
  · rcases mem_optCounter h2 with ⟨v, _, rfl⟩
    exact Or.inr ⟨_, v, by simp, rfl⟩
  · rcases mem_optCounter h3 with ⟨v, _, rfl⟩
    exact Or.inr ⟨_, v, by simp, rfl⟩
  · rcases mem_optCounter h4 with ⟨v, _, rfl⟩
    exact Or.inr ⟨_, v, by simp, rfl⟩
  · rcases mem_optCounter h5 with ⟨v, _, rfl⟩
    exact Or.inr ⟨_, v, by simp, rfl⟩

theorem stateBlock_processInstance_length (proto : String) (vrid : Nat)
    (iface : String) (inst : VrrpInstanceInfo) :
    (stateBlock (processInstance proto vrid iface inst)).length = 3 := by
  rw [stateBlock_processInstance]
  simp [vrrpStates]

/-- The per-record emission of `processVRRPInfo`'s loop body. -/
def emitVr (vr : VrrpVrInfo) : List Observation :=
  processInstance "v4" vr.Vrid vr.Interface vr.V4Info ++
  processInstance "v6" vr.Vrid vr.Interface vr.V6Info

theorem stateBlock_flatMap_length (vrs : List VrrpVrInfo) :
    (stateBlock (vrs.flatMap emitVr)).length = 6 * vrs.length := by
  induction vrs with
  | nil => simp [stateBlock]
  | cons vr rest ih =>
    simp only [List.flatMap_cons, stateBlock, List.filter_append,
      List.length_append, emitVr] at *
    rw [show (List.filter isStateObs
          (processInstance "v4" vr.Vrid vr.Interface vr.V4Info)).length = 3
        from stateBlock_processInstance_length _ _ _ _,
      show (List.filter isStateObs
          (processInstance "v6" vr.Vrid vr.Interface vr.V6Info)).length = 3
        from stateBlock_processInstance_length _ _ _ _, ih]
    simp [List.length_cons]
    ring

/-- The per-peer emission of the BFD loop contributes no peer-count
observation. -/
theorem bfd_flatMap_count_filter (peers : List BfdPeer) :
    ((peers.flatMap bfdPeerObs).filter
        (fun o => o.desc == "bfdPeerCount")) = [] := by
  induction peers with
  | nil => simp
  | cons p rest ih => simp [bfdPeerObs, ih]

/-! ## Claims -/

/-- C1 (counterexample): the one-hot claim fails as stated. The buffer
holding one record with no fields decodes successfully, and the three
v4 state observations (the first three emitted) all have value 0 — the
per-block sum is 0, not 1, because the empty status string matches none
of the enumerated states. -/
theorem vrrpState_oneHot_counterexample :
    (processVRRPInfo inputEmptyRecord).2 = none ∧
    ((processVRRPInfo inputEmptyRecord).1.take 3).map Observation.value
      = [0, 0, 0] := by decide

/-- C1 (amended): for every virtual-router record and family,
`processInstance` emits exactly 3 state observations whose values sum
to 1 when the sub-record status case-insensitively equals one of the
enumerated states, and to 0 otherwise — so the sum is 0 or 1, and it is
1 exactly on recognized statuses. -/
theorem vrrpState_stateSum (proto : String) (vrid : Nat) (iface : String)
    (inst : VrrpInstanceInfo) :
    (stateBlock (processInstance proto vrid iface inst)).length = 3 ∧
    ((stateBlock (processInstance proto vrid iface inst)).map
        Observation.value).sum =
      (if vrrpStates.any (fun st => eqFold inst.Status st) then 1 else 0) :=
  ⟨stateBlock_processInstance_length proto vrid iface inst,
   stateSum_processInstance proto vrid iface inst⟩

/-- C9: the three enumerated state names are pairwise case-insensitively
distinct, so at most one of the three state observations of a family
block has value 1: the per-block sum of state values is at most 1. -/
theorem vrrpState_atMostOne (proto : String) (vrid : Nat) (iface : String)
    (inst : VrrpInstanceInfo) :
    List.Pairwise (fun a b => eqFold a b = false) vrrpStates ∧
    ((stateBlock (processInstance proto vrid iface inst)).map
        Observation.value).sum ≤ 1 := by
  refine ⟨by decide, ?_⟩
  rw [stateSum_processInstance]
  split <;> norm_num

/-- C10: the buffers `null` and `[]` decode successfully — JSON null
leaves the nil record list and an empty array decodes to the empty
list — so `processVRRPInfo` returns no error and emits nothing. -/
theorem processVRRPInfo_null_emptyArray :
    processVRRPInfo inputNull = ([], none) ∧
    processVRRPInfo inputEmptyArray = ([], none) := by decide

/-- C4: whenever unmarshalling the buffer fails, `processVRRPInfo`
returns that decode error and has pushed nothing into the sink — the
error return precedes the emission loop, so decode failure is atomic. -/
theorem processVRRPInfo_decode_atomic (s : String) (e : DecodeError)
    (h : (processVRRPInfo s).2 = some e) :
    (processVRRPInfo s).1 = [] := by
  unfold processVRRPInfo at h ⊢
  cases hd : decodeVrrpInput s <;> simp [hd] at h ⊢

/-- C4 (witness): the non-JSON buffer of `inputMalformed` fails with the
parse error and emits zero observations. -/
theorem processVRRPInfo_decode_atomic_witness :
    (processVRRPInfo inputMalformed).2 = some ("invalid JSON input") ∧
    (processVRRPInfo inputMalformed).1 = [] :=
  ⟨by decide,
   processVRRPInfo_decode_atomic inputMalformed ("invalid JSON input")
     (by decide)⟩

/-- C5 (counterexample): the claim that records with missing or extra
fields are rejected fails. A record with no fields at all, and a record
carrying only a field unknown to the schema, both decode without error,
and the pipeline proceeds with zero-valued defaults, emitting the full
six-observation state block. -/
theorem decode_lenient_counterexample :
    (processVRRPInfo inputEmptyRecord).2 = none ∧
    (processVRRPInfo inputExtraField).2 = none ∧
    (processVRRPInfo inputExtraField).1.length = 6 := by decide

/-- C5 (amended): `processVRRPInfo` fails with a decode error when the
bytes are not valid JSON, or when a present field's value has a
mismatched type (e.g. a string in `Vrid`); but records with missing
fields decode to zero-valued defaults and unknown fields are ignored,
so shape deviations of that kind are tolerated, not rejected. -/
theorem decode_error_conditions (s : String)
    (h : (parseJson s).isNone = true) :
    (∃ e, processVRRPInfo s = ([], some e)) ∧
    (processVRRPInfo inputBadVrid).1 = [] ∧
    (processVRRPInfo inputBadVrid).2.isSome = true ∧
    (processVRRPInfo inputEmptyRecord).2 = none := by
  refine ⟨⟨"invalid JSON input", ?_⟩, by decide, by decide, by decide⟩
  have hp : parseJson s = none := Option.isNone_iff_eq_none.mp h
  simp [processVRRPInfo, decodeVrrpInput, hp]

/-- C5 (witness): the amended error conditions, instantiated at the
non-JSON buffer of `inputMalformed`. -/
theorem decode_error_conditions_witness :
    (∃ e, processVRRPInfo inputMalformed = ([], some e)) ∧
    (processVRRPInfo inputBadVrid).1 = [] ∧
    (processVRRPInfo inputBadVrid).2.isSome = true ∧
    (processVRRPInfo inputEmptyRecord).2 = none :=
  decode_error_conditions inputMalformed (by decide)

/-- C2: on every successfully decoded input the emission is exactly the
concatenation, record by record, of the v4 block followed by the v6
block — both families processed unconditionally, so each record yields
exactly 6 state observations — and each family block's state
observations are one per state in the fixed ordered set, labelled with
the base labels plus the state name, with value 1 iff the sub-record
status case-insensitively equals that state name, else 0. -/
theorem processVRRPInfo_structure (s : String)
    (h : (processVRRPInfo s).2 = none) :
    (∃ vrs, decodeVrrpInput s = .ok vrs ∧
      (processVRRPInfo s).1 = vrs.flatMap emitVr ∧
      (stateBlock (processVRRPInfo s).1).length = 6 * vrs.length) ∧
    ∀ proto vrid iface inst,
      stateBlock (processInstance proto vrid iface inst) =
        vrrpStates.map (fun st =>
          { desc := "vrrpState", kind := .gauge,
            labelValues := [proto, toString vrid, iface,
              inst.Subinterface, st],
            value := if eqFold inst.Status st then 1 else 0 }) := by
  refine ⟨?_, fun proto vrid iface inst =>
    stateBlock_processInstance proto vrid iface inst⟩
  cases hd : decodeVrrpInput s with
  | error e =>
    have he : (processVRRPInfo s).2 = some e := by
      simp [processVRRPInfo, hd]
    rw [he] at h
    exact absurd h (by simp)
  | ok vrs =>
    have h1 : (processVRRPInfo s).1 = vrs.flatMap emitVr := by
      unfold processVRRPInfo
      rw [hd]
      rfl
    exact ⟨vrs, rfl, h1, by rw [h1]; exact stateBlock_flatMap_length vrs⟩

/-- C2 (witness): the structure theorem instantiated at the one-record
input with no fields, which decodes successfully. -/
theorem processVRRPInfo_structure_witness :
    (∃ vrs, decodeVrrpInput inputEmptyRecord = .ok vrs ∧
      (processVRRPInfo inputEmptyRecord).1 = vrs.flatMap emitVr ∧
      (stateBlock (processVRRPInfo inputEmptyRecord).1).length =
        6 * vrs.length) ∧
    ∀ proto vrid iface inst,
      stateBlock (processInstance proto vrid iface inst) =
        vrrpStates.map (fun st =>
          { desc := "vrrpState", kind := .gauge,
            labelValues := [proto, toString vrid, iface,
              inst.Subinterface, st],
            value := if eqFold inst.Status st then 1 else 0 }) :=
  processVRRPInfo_structure inputEmptyRecord (by decide)

theorem filter_desc_stateMap (proto : String) (vrid : Nat) (iface : String)
    (inst : VrrpInstanceInfo) (d : String)
    (h : ("vrrpState" == d) = false) :
    (vrrpStates.map (fun state =>
      ({ desc := "vrrpState", kind := .gauge,
         labelValues := [proto, toString vrid, iface,
           inst.Subinterface] ++ [state],
         value := if eqFold inst.Status state then 1 else 0 } :
        Observation))).filter (fun o => o.desc == d) = [] := by
  simp [vrrpStates, h]

theorem filter_desc_optCounter_ne (d d' : String) (ls : List String)
    (x : Option Nat) (h : (d' == d) = false) :
    (optCounter d' ls x).filter (fun o => o.desc == d) = [] := by
  cases x <;> simp [optCounter, h]

theorem filter_desc_optCounter_self (d : String) (ls : List String)
    (x : Option Nat) :
    (optCounter d ls x).filter (fun o => o.desc == d) = optCounter d ls x := by
  cases x <;> simp [optCounter]

/-- C3: for each of the five statistics fields, `processInstance` emits
a counter observation with the base labels and the field's numeric
value iff the field is present (non-nil) in the sub-record's
statistics; an absent field contributes no observation at all (never a
zero-valued one), and each field is judged independently of the other
four. -/
theorem processInstance_optionalCounters (proto : String) (vrid : Nat)
    (iface : String) (inst : VrrpInstanceInfo) :
    ((processInstance proto vrid iface inst).filter
        (fun o => o.desc == "adverTx") =
      (match inst.Statistics.AdverTx with
       | some v => [⟨"adverTx", .counter,
           [proto, toString vrid, iface, inst.Subinterface], (v : Int)⟩]
       | none => [])) ∧
    ((processInstance proto vrid iface inst).filter
        (fun o => o.desc == "adverRx") =
      (match inst.Statistics.AdverRx with
       | some v => [⟨"adverRx", .counter,
           [proto, toString vrid, iface, inst.Subinterface], (v : Int)⟩]
       | none => [])) ∧
    ((processInstance proto vrid iface inst).filter
        (fun o => o.desc == "garpTx") =
      (match inst.Statistics.GarpTx with
       | some v => [⟨"garpTx", .counter,
           [proto, toString vrid, iface, inst.Subinterface], (v : Int)⟩]
       | none => [])) ∧
    ((processInstance proto vrid iface inst).filter
        (fun o => o.desc == "neighborAdverTx") =
      (match inst.Statistics.NeighborAdverTx with
       | some v => [⟨"neighborAdverTx", .counter,
           [proto, toString vrid, iface, inst.Subinterface], (v : Int)⟩]
       | none => [])) ∧
    ((processInstance proto vrid iface inst).filter
        (fun o => o.desc == "transitions") =
      (match inst.Statistics.Transitions with
       | some v => [⟨"transitions", .counter,
           [proto, toString vrid, iface, inst.Subinterface], (v : Int)⟩]
       | none => [])) := by
  obtain ⟨sub, status, ⟨a1, a2, a3, a4, a5⟩⟩ := inst
  cases a1 <;> cases a2 <;> cases a3 <;> cases a4 <;> cases a5 <;>
    simp [processInstance, optCounter, vrrpStates]

theorem mem_processVRRPInfo {s : String} {o : Observation}
    (h : o ∈ (processVRRPInfo s).1) :
    ∃ proto vrid iface inst, o ∈ processInstance proto vrid iface inst := by
  unfold processVRRPInfo at h
  cases hd : decodeVrrpInput s with
  | error e => rw [hd] at h; simp at h
  | ok vrs =>
    rw [hd] at h
    have h' : o ∈ vrs.flatMap emitVr := h
    rcases List.mem_flatMap.mp h' with ⟨vr, _, hmem⟩
    rcases List.mem_append.mp hmem with h4 | h6
    · exact ⟨_, _, _, _, h4⟩
    · exact ⟨_, _, _, _, h6⟩

theorem value_ranges_of_mem_processInstance {proto : String} {vrid : Nat}
    {iface : String} {inst : VrrpInstanceInfo} {o : Observation}
    (h : o ∈ processInstance proto vrid iface inst) :
    (o.kind = .counter → 0 ≤ o.value) ∧
    (o.kind = .gauge → o.value = 0 ∨ o.value = 1) := by
  rcases mem_processInstance h with ⟨st, _, rfl⟩ | ⟨d, v, _, rfl⟩
  · refine ⟨fun hk => by simp at hk, fun _ => ?_⟩
    rcases Bool.eq_false_or_eq_true (eqFold inst.Status st) with hf | hf <;>
      simp [hf]
  · exact ⟨fun _ => Int.natCast_nonneg v, fun hk => by simp at hk⟩

theorem labels_of_mem_processInstance {proto : String} {vrid : Nat}
    {iface : String} {inst : VrrpInstanceInfo} {o : Observation}
    (h : o ∈ processInstance proto vrid iface inst) :
    ∃ names, (o.desc, names) ∈ getVRRPDesc ∧
      o.labelValues.length = names.length := by
  rcases mem_processInstance h with ⟨st, _, rfl⟩ | ⟨d, v, hd, rfl⟩
  · exact ⟨vrrpLabelNames ++ ["state"], by simp [getVRRPDesc],
      by simp [vrrpLabelNames]⟩
  · refine ⟨vrrpLabelNames, ?_, by simp [vrrpLabelNames]⟩
    fin_cases hd <;> simp [getVRRPDesc]

theorem ranges_of_mem_processBFDPeers {peers : List BfdPeer}
    {o : Observation} (h : o ∈ processBFDPeers peers) :
    (o.kind = .counter → 0 ≤ o.value) ∧
    (o.desc = "bfdPeerCount" → o.value = (peers.length : Int)) ∧
    (o.kind = .gauge → o.desc = "bfdPeerCount" ∨
      o.value = 0 ∨ o.value = 1) := by
  rcases List.mem_cons.mp h with rfl | hm
  · exact ⟨fun hk => by simp at hk, fun _ => rfl, fun _ => Or.inl rfl⟩
  · rcases List.mem_flatMap.mp hm with ⟨p, _, hp⟩
    rcases List.mem_cons.mp hp with rfl | hp2
    · exact ⟨fun _ => Int.natCast_nonneg _, fun hd => by simp at hd,
        fun hk => by simp at hk⟩
    · rcases List.mem_cons.mp hp2 with rfl | hp3
      · refine ⟨fun hk => by simp at hk, fun hd => by simp at hd,
          fun _ => Or.inr ?_⟩
        by_cases hs : p.status = 1 <;> simp [hs]
      · simp at hp3

/-- C6 (counterexample): the claim that every gauge observation has
value exactly 0 or 1 fails on the BFD side: on the three-peer table of
the test fixture, the first emitted observation is the peer-count
gauge, whose value is 3. -/
theorem gauge_zeroOne_counterexample :
    (processBFDPeers examplePeers).head? =
      some ⟨"bfdPeerCount", .gauge, [], 3⟩ ∧
    ¬((3 : Int) = 0 ∨ (3 : Int) = 1) := by decide

/-- C6 (amended): every counter observation carries a non-negative
value; every VRRP gauge observation is exactly 0 or 1; among the BFD
gauges the per-peer state gauges are exactly 0 or 1, while the
peer-count gauge equals the number of decoded records and so may
exceed 1. -/
theorem emitted_value_ranges (s : String) (peers : List BfdPeer) :
    (∀ o ∈ (processVRRPInfo s).1,
      (o.kind = .counter → 0 ≤ o.value) ∧
      (o.kind = .gauge → o.value = 0 ∨ o.value = 1)) ∧
    (∀ o ∈ processBFDPeers peers,
      (o.kind = .counter → 0 ≤ o.value) ∧
      (o.desc = "bfdPeerCount" → o.value = (peers.length : Int)) ∧
      (o.kind = .gauge → o.desc = "bfdPeerCount" ∨
        o.value = 0 ∨ o.value = 1)) :=
  ⟨fun o ho => by
      rcases mem_processVRRPInfo ho with ⟨p, v, i, inst, hm⟩
      exact value_ranges_of_mem_processInstance hm,
   fun o ho => ranges_of_mem_processBFDPeers ho⟩

/-- C6 (witness): the amended theorem applied to the first observation
of the empty-record input, a state gauge of value 0. -/
theorem emitted_value_ranges_witness :
    sampleStateObs.value = 0 ∨ sampleStateObs.value = 1 :=
  ((emitted_value_ranges inputEmptyRecord examplePeers).1 sampleStateObs
    (by decide)).2 rfl

/-- C7 (counterexample): the never-empty-placeholder claim fails — for
the one-record input with no fields the interface and subinterface
dimensions are unknown, yet six observations are emitted and every one
of them carries empty-string label values in those positions. -/
theorem label_placeholder_counterexample :
    (processVRRPInfo inputEmptyRecord).1.length = 6 ∧
    ((processVRRPInfo inputEmptyRecord).1.all
      (fun o => o.labelValues.contains "")) = true := by decide

/-- C7 (amended): every emitted observation carries a complete ordered
label value list matching its descriptor's declared label names — 5
values for the state metric and 4 for each counter metric — but label
values may be empty strings standing in for missing dimensions. -/
theorem labels_match_descriptors (s : String) :
    ∀ o ∈ (processVRRPInfo s).1, ∃ names,
      (o.desc, names) ∈ getVRRPDesc ∧
      o.labelValues.length = names.length := fun o ho => by
  rcases mem_processVRRPInfo ho with ⟨p, v, i, inst, hm⟩
  exact labels_of_mem_processInstance hm

/-- C7 (witness): the amended theorem applied to the first state
observation of the empty-record input. -/
theorem labels_match_descriptors_witness :
    ∃ names, (sampleStateObs.desc, names) ∈ getVRRPDesc ∧
      sampleStateObs.labelValues.length = names.length :=
  labels_match_descriptors inputEmptyRecord sampleStateObs (by decide)

/-- C8: the peer-count observation value equals the number of decoded
records regardless of their statuses; each decoded peer contributes one
uptime counter and one state gauge labelled (local, peer) with state
value 1 iff the status denotes up; and on the three-peer fixture table
the emission is count 3, uptimes 847716/847595/847888 and state values
1/1/0 for peers .61/.62/.63. -/
theorem processBFDPeers_spec :
    (∀ peers : List BfdPeer,
      ((processBFDPeers peers).filter
          (fun o => o.desc == "bfdPeerCount")).map Observation.value =
        [(peers.length : Int)]) ∧
    (∀ peers : List BfdPeer, ∀ p ∈ peers,
      (⟨"bfdPeerUptime", .counter, [p.localAddr, p.peerAddr],
         (p.uptime : Int)⟩ : Observation) ∈ processBFDPeers peers ∧
      (⟨"bfdPeerState", .gauge, [p.localAddr, p.peerAddr],
         if p.status = 1 then 1 else 0⟩ : Observation) ∈
        processBFDPeers peers) ∧
    processBFDPeers examplePeers =
      [⟨"bfdPeerCount", .gauge, [], 3⟩,
       ⟨"bfdPeerUptime", .counter, ["10.10.141.81", "10.10.141.61"],
         847716⟩,
       ⟨"bfdPeerState", .gauge, ["10.10.141.81", "10.10.141.61"], 1⟩,
       ⟨"bfdPeerUptime", .counter, ["10.10.141.81", "10.10.141.62"],
         847595⟩,
       ⟨"bfdPeerState", .gauge, ["10.10.141.81", "10.10.141.62"], 1⟩,
       ⟨"bfdPeerUptime", .counter, ["10.10.141.81", "10.10.141.63"],
         847888⟩,
       ⟨"bfdPeerState", .gauge, ["10.10.141.81", "10.10.141.63"], 0⟩] := by
  refine ⟨fun peers => ?_, fun peers p hp => ?_, by decide⟩
  · simp [processBFDPeers, List.filter_cons, bfd_flatMap_count_filter peers]
  · constructor <;>
      exact List.mem_cons_of_mem _
        (List.mem_flatMap.mpr ⟨p, hp, by simp [bfdPeerObs]⟩)

/-- C8 (witness): the per-peer clause applied to the first fixture
peer. -/
theorem processBFDPeers_spec_witness :
    (⟨"bfdPeerUptime", .counter, ["10.10.141.81", "10.10.141.61"],
       (847716 : Int)⟩ : Observation) ∈ processBFDPeers examplePeers :=
  (processBFDPeers_spec.2.1 examplePeers
    ⟨"10.10.141.81", "10.10.141.61", 847716, 1⟩ (by decide)).1

end FrrExporter
